import Mathlib

/-
Verification of the FPL Transfer Recommender server (src/server.js).

The development shallowly embeds the server's team-statistics derivation
(`loadData`), the clean-sheet probability heuristic (`getCSProb`), the
fixture-enrichment loop of GET /api/fixtures, and the error branches of the
two API routes.  JavaScript numbers are modelled as `Int`/`ℚ`; a possibly
`null` number is an `Option Int`.  Decimal literals of the source (0.6, 0.75,
1.2, 1.5, 0.8) are modelled as the exact rationals they denote.
-/

namespace FPL

/-- An upstream fixture record, with the fields src/server.js reads:
`event` (gameweek, null until scheduled), `finished`, the two team ids,
the two scores (null until played) and the two published difficulty ratings. -/
structure Fixture where
  event : Option Int
  finished : Bool
  team_h : Nat
  team_a : Nat
  team_h_score : Option Int
  team_a_score : Option Int
  team_h_difficulty : Int
  team_a_difficulty : Int
  deriving Repr, DecidableEq

/-- An upstream bootstrap team record, with the fields the server reads. -/
structure Team where
  id : Nat
  code : Nat
  name : String
  short_name : String
  deriving Repr, DecidableEq

/-- The per-team stats record `loadData` stores into the `teamStats` map. -/
structure TeamStats where
  csRate : ℚ
  goalsPerGame : ℚ
  concededPerGame : ℚ
  momentum : ℚ
  deriving Repr, DecidableEq

/-- JS `f.event || 0`: the gameweek number, with a missing gameweek read as 0. -/
def eventD (f : Fixture) : Int := f.event.getD 0

/-- Stable insertion (descending by `eventD`) used to model the JS stable
`sort((a, b) => (b.event || 0) - (a.event || 0))`: the inserted fixture, which
originally precedes the already-sorted suffix, stays before entries with an
equal key. -/
def insertByEventDesc (f : Fixture) : List Fixture → List Fixture
  | [] => [f]
  | g :: gs => if eventD g ≤ eventD f then f :: g :: gs else g :: insertByEventDesc f gs

/-- Stable sort, descending by gameweek (missing gameweek sorts as 0). -/
def sortByEventDesc : List Fixture → List Fixture
  | [] => []
  | f :: fs => insertByEventDesc f (sortByEventDesc fs)

/-- The `finished` list of `loadData`:
`fixtures.filter(f => f.finished).sort((a, b) => (b.event || 0) - (a.event || 0))`. -/
def finishedSorted (fixtures : List Fixture) : List Fixture :=
  sortByEventDesc (fixtures.filter (·.finished))

/-- JS `f.team_h === team.id || f.team_a === team.id`. -/
def involves (teamId : Nat) (f : Fixture) : Bool :=
  f.team_h == teamId || f.team_a == teamId

/-- The `teamGames` window of `loadData`:
`finished.filter(f => f.team_h === team.id || f.team_a === team.id).slice(0, 10)`. -/
def window (teamId : Nat) (fixtures : List Fixture) : List Fixture :=
  ((finishedSorted fixtures).filter (involves teamId)).take 10

/-- The `gf` local of the forEach body:
`isHome ? f.team_h_score : f.team_a_score`. -/
def goalsFor (teamId : Nat) (f : Fixture) : Option Int :=
  if f.team_h == teamId then f.team_h_score else f.team_a_score

/-- The `ga` local of the forEach body:
`isHome ? f.team_a_score : f.team_h_score`. -/
def goalsAgainst (teamId : Nat) (f : Fixture) : Option Int :=
  if f.team_h == teamId then f.team_a_score else f.team_h_score

/-- JS `a > b` where either side may be null: null coerces to 0. -/
def jsGt (a b : Option Int) : Bool := a.getD 0 > b.getD 0

/-- JS strict equality `a === b` on possibly-null numbers: two nulls are
strictly equal, a null and a number never are. -/
def jsEqq (a b : Option Int) : Bool := a == b

/-- The match points of the forEach body:
`const pts = gf > ga ? 3 : gf === ga ? 1 : 0`. -/
def pts (gf ga : Option Int) : Int :=
  if jsGt gf ga then 3 else if jsEqq gf ga then 1 else 0

/-- The mutable accumulators of the forEach loop:
`let cs = 0, scored = 0, conceded = 0, form = 0`. -/
structure Totals where
  cs : Nat
  scored : Int
  conceded : Int
  form : Int
  deriving Repr, DecidableEq

/-- One iteration of `teamGames.forEach((f, i) => ...)`:
`if (ga === 0) cs++; scored += gf || 0; conceded += ga || 0;
if (i < 5) form += pts * (5 - i)`.  (JS `x || 0` equals `x` for a non-null
number, including `x = 0`, and 0 for null: exactly `Option.getD 0`.) -/
def stepGame (teamId : Nat) (acc : Totals) (i : Nat) (f : Fixture) : Totals :=
  { cs := if goalsAgainst teamId f == some 0 then acc.cs + 1 else acc.cs
    scored := acc.scored + (goalsFor teamId f).getD 0
    conceded := acc.conceded + (goalsAgainst teamId f).getD 0
    form := if i < 5 then
        acc.form + pts (goalsFor teamId f) (goalsAgainst teamId f) * (5 - (i : Int))
      else acc.form }

/-- The whole forEach loop over the window, starting from zero accumulators. -/
def runGames (teamId : Nat) (games : List Fixture) : Totals :=
  games.enum.foldl (fun acc p => stepGame teamId acc p.1 p.2) ⟨0, 0, 0, 0⟩

/-- The stats record `loadData` computes for one team:
`{ csRate: teamGames.length ? cs / teamGames.length : 0, ...,
momentum: form / 45 }` (a zero length is falsy, hence the 0 branches). -/
def teamStatsFor (teamId : Nat) (fixtures : List Fixture) : TeamStats :=
  { csRate := if (window teamId fixtures).length = 0 then 0 else
      ((runGames teamId (window teamId fixtures)).cs : ℚ) / (window teamId fixtures).length
    goalsPerGame := if (window teamId fixtures).length = 0 then 0 else
      ((runGames teamId (window teamId fixtures)).scored : ℚ) / (window teamId fixtures).length
    concededPerGame := if (window teamId fixtures).length = 0 then 0 else
      ((runGames teamId (window teamId fixtures)).conceded : ℚ) / (window teamId fixtures).length
    momentum := ((runGames teamId (window teamId fixtures)).form : ℚ) / 45 }

/-- The module-level mutable state of src/server.js:
`let teamsById = new Map(); let teamStats = new Map(); let fixturesData = [];`.
Maps are modelled as lookup functions. -/
structure ServerState where
  teamsById : Nat → Option Team
  teamStats : Nat → Option TeamStats
  fixturesData : List Fixture

/-- JS `new Map(bootstrap.teams.map(t => [t.id, t]))`: a later duplicate id
overwrites an earlier one. -/
def teamsMapOf (teams : List Team) : Nat → Option Team :=
  teams.foldl (fun m t => fun k => if k == t.id then some t else m k) (fun _ => none)

/-- The state update `loadData` performs once both upstream payloads are in
hand: `teamsById` and `fixturesData` are reassigned wholesale, while the
`teamStats` map is only updated entry by entry (`teamStats.set(team.id, ...)`
for each team of the current bootstrap) — it is never cleared or reassigned,
so entries for ids absent from the current bootstrap survive. -/
def loadData (bootstrapTeams : List Team) (fixtures : List Fixture)
    (s : ServerState) : ServerState :=
  { teamsById := teamsMapOf bootstrapTeams
    teamStats := bootstrapTeams.foldl
      (fun m t => fun k => if k == t.id then some (teamStatsFor t.id fixtures) else m k)
      s.teamStats
    fixturesData := fixtures }

/-- getBadge from src/server.js: `team && team.code ? url : ''`; a missing
team or a zero (falsy) badge code yields the empty string. -/
def getBadge (t : Option Team) : String :=
  match t with
  | some team =>
    if team.code ≠ 0 then
      "https://resources.premierleague.com/premierleague/badges/50/t"
        ++ toString team.code ++ ".png"
    else ""
  | none => ""

/-- JS `Math.round`: round half toward positive infinity. -/
def jsRound (q : ℚ) : Int := ⌊q + 1 / 2⌋

/-- getCSProb from src/server.js.  `if (!team || !opp) return 25;` then the
adjusted, clamped, rounded probability. -/
def getCSProb (stats : Nat → Option TeamStats) (teamId oppId : Nat) : Int :=
  match stats teamId, stats oppId with
  | some team, some opp =>
    jsRound (max 5 (min 55
      (if opp.goalsPerGame > 2 then team.csRate * 100 * (6 / 10)
       else if opp.goalsPerGame > 15 / 10 then team.csRate * 100 * (75 / 100)
       else if opp.goalsPerGame < 8 / 10 then team.csRate * 100 * (12 / 10)
       else team.csRate * 100)))
  | _, _ => 25

/-- One element the GET /api/fixtures loop pushes onto `fixtures`. -/
structure FixtureRow where
  teamId : Nat
  gw : Int
  opp : String
  oppBadge : String
  isHome : Bool
  fdr : Int
  cs : Int
  deriving Repr, DecidableEq

/-- The continue condition of the loop:
`if (!f.event || f.event < gwId || f.event >= gwId + weeks) continue;`
(a null or 0 gameweek is falsy, hence skipped). -/
def skipFixture (gwId weeks : Int) (f : Fixture) : Bool :=
  eventD f == 0 || eventD f < gwId || eventD f ≥ gwId + weeks

/-- The first row pushed per kept fixture (the home side).  `gw` is the raw
`f.event`, which on a kept fixture equals `eventD f`. -/
def homeRow (s : ServerState) (f : Fixture) : FixtureRow :=
  { teamId := f.team_h
    gw := eventD f
    opp := match s.teamsById f.team_a with
      | some away => away.short_name
      | none => "?"
    oppBadge := getBadge (s.teamsById f.team_a)
    isHome := true
    fdr := f.team_h_difficulty
    cs := getCSProb s.teamStats f.team_h f.team_a }

/-- The second row pushed per kept fixture (the away side). -/
def awayRow (s : ServerState) (f : Fixture) : FixtureRow :=
  { teamId := f.team_a
    gw := eventD f
    opp := match s.teamsById f.team_h with
      | some home => home.short_name
      | none => "?"
    oppBadge := getBadge (s.teamsById f.team_h)
    isHome := false
    fdr := f.team_a_difficulty
    cs := getCSProb s.teamStats f.team_a f.team_h }

/-- The `for (const f of fixturesData)` loop of GET /api/fixtures: per kept
fixture it pushes the home row then the away row. -/
def enrichFixtures (s : ServerState) (gwId weeks : Int) : List Fixture → List FixtureRow
  | [] => []
  | f :: rest =>
    if skipFixture gwId weeks f then enrichFixtures s gwId weeks rest
    else homeRow s f :: awayRow s f :: enrichFixtures s gwId weeks rest

/-- JS `parseInt(req.query.weeks) || 6`: `parseInt` of an absent or
non-numeric parameter is NaN (modelled `none`), and both NaN and 0 are falsy,
so they default to 6; any other integer is used as-is. -/
def weeksParam (parsed : Option Int) : Int :=
  match parsed with
  | none => 6
  | some w => if w = 0 then 6 else w

/-- An HTTP response of one of the two API routes: `res.json(payload)`
(status 200) or `res.status(n).json({error: msg})`. -/
inductive ApiResponse (α : Type) where
  | json (status : Nat) (payload : α)
  | errorJson (status : Nat) (error : String)

/-- GET /api/bootstrap: the whole try block (both upstream fetches plus the
payload assembly) either produces the response payload or throws; the catch
turns every thrown error into a 503. -/
def bootstrapRoute {α : Type} (tryBlock : Except String α) : ApiResponse α :=
  match tryBlock with
  | .ok a => .json 200 a
  | .error _ => .errorJson 503 "FPL API unavailable"

/-- GET /api/fixtures: same shape with a 500 and the body `Failed`. -/
def fixturesRoute {α : Type} (tryBlock : Except String α) : ApiResponse α :=
  match tryBlock with
  | .ok a => .json 200 a
  | .error _ => .errorJson 500 "Failed"

/-! Spec-side definitions, written from the specification's words, to be
compared with the code-derived definitions above. -/

/-- Match points as the spec states them, on concrete goal counts:
win = 3, draw = 1, loss = 0. -/
def matchPts (gf ga : Int) : Int :=
  if gf > ga then 3 else if gf = ga then 1 else 0

/-- The spec's weighted momentum numerator: over the 5 most recent entries of
the window, match points times positional weights 5,4,3,2,1 (most recent
first); `zipWith` against the five weights caps the sum at 5 entries. -/
def specWeightedPoints (teamId : Nat) (games : List Fixture) : Int :=
  (List.zipWith
    (fun f (w : Int) =>
      matchPts ((goalsFor teamId f).getD 0) ((goalsAgainst teamId f).getD 0) * w)
    games [5, 4, 3, 2, 1]).sum

/-- The clean-sheet probability as the spec states it, on the raw rates:
base = csRate × 100; × 0.6 if opponent goals-per-game > 2, else × 0.75 if
> 1.5, else × 1.2 if < 0.8; clamp to [5, 55]; round. -/
def specCSProb (csRate oppGoalsPerGame : ℚ) : Int :=
  jsRound (max 5 (min 55
    (if oppGoalsPerGame > 2 then csRate * 100 * (6 / 10)
     else if oppGoalsPerGame > 15 / 10 then csRate * 100 * (75 / 100)
     else if oppGoalsPerGame < 8 / 10 then csRate * 100 * (12 / 10)
     else csRate * 100)))

/-- The spec's enrichment window: a fixture whose gameweek lies in the
half-open interval from the current gameweek (inclusive) to current + weeks
(exclusive).  A fixture with no gameweek lies in no window. -/
def inWindow (gwId weeks : Int) (f : Fixture) : Bool :=
  match f.event with
  | some e => gwId ≤ e && e < gwId + weeks
  | none => false

/-! Concrete inputs used by witnesses and counterexamples. -/

/-- A finished 0-0 draw between teams 1 and 2 at gameweek `e`. -/
def drawFx (e : Int) : Fixture := ⟨some e, true, 1, 2, some 0, some 0, 3, 3⟩

/-- Ten finished 0-0 draws for team 1, gameweeks 1 through 10. -/
def exDraws : List Fixture :=
  [drawFx 1, drawFx 2, drawFx 3, drawFx 4, drawFx 5,
   drawFx 6, drawFx 7, drawFx 8, drawFx 9, drawFx 10]

/-- A fixture flagged finished whose away score is missing (home side scored 0). -/
def missingScoreFx : Fixture := ⟨some 1, true, 1, 2, some 0, none, 3, 3⟩

/-- A finished 0-2 home loss for team 1 at gameweek `e`. -/
def lossFx (e : Int) : Fixture := ⟨some e, true, 1, 2, some 0, some 2, 3, 3⟩

/-- Three straight losses for team 1. -/
def exLosses : List Fixture := [lossFx 1, lossFx 2, lossFx 3]

/-- A stats record with every field 1, standing for a previous refresh's entry. -/
def staleStats : TeamStats := ⟨1, 1, 1, 1⟩

/-- A server state left by a previous refresh: one stats entry, for team 99,
and no team lookup entries. -/
def staleState : ServerState :=
  { teamsById := fun _ => none
    teamStats := fun k => if k == 99 then some staleStats else none
    fixturesData := [] }

/-- A bootstrap whose only team is team 1 (team 99 is absent). -/
def freshTeams : List Team := [⟨1, 10, "Alpha", "ALP"⟩]

/-- An empty server state. -/
def emptyState : ServerState :=
  { teamsById := fun _ => none, teamStats := fun _ => none, fixturesData := [] }

/-- A stats map holding the spec's worked example: team 1 has csRate 0.4 and
team 2 has goalsPerGame 2.5. -/
def exStatsMap : Nat → Option TeamStats :=
  fun k =>
    if k == 1 then some ⟨2 / 5, 1, 1, 1 / 2⟩
    else if k == 2 then some ⟨1 / 2, 5 / 2, 1, 1 / 2⟩
    else none

/-- Upcoming fixtures at gameweeks 9, 10, 15, 16 and one unscheduled. -/
def exUpcoming : List Fixture :=
  [⟨some 9, false, 1, 2, none, none, 2, 3⟩,
   ⟨some 10, false, 1, 2, none, none, 2, 3⟩,
   ⟨some 15, false, 2, 1, none, none, 4, 2⟩,
   ⟨some 16, false, 1, 2, none, none, 2, 3⟩,
   ⟨none, false, 1, 2, none, none, 2, 3⟩]

/-- One unfinished fixture of team 1 and one finished fixture of other teams:
team 1 has zero finished fixtures here. -/
def exUnfinished : List Fixture :=
  [⟨some 1, false, 1, 2, none, none, 2, 2⟩,
   ⟨some 2, true, 3, 4, some 1, some 0, 2, 2⟩]

/-! Helper lemmas about the statistics fold. -/

/-- Positionally weighted sum of a list of point values: entry at index `i`
(counting from `i0`) contributes `p * (5 - i)` when `i < 5` and 0 otherwise —
the shape of the `form` accumulator. -/
def wsum (i0 : Nat) : List Int → Int
  | [] => 0
  | p :: ps => (if i0 < 5 then p * (5 - (i0 : Int)) else 0) + wsum (i0 + 1) ps

/-- Closed form of the forEach fold, for any starting index and accumulator. -/
theorem foldl_stepGame_eq (t : Nat) (games : List Fixture) : ∀ (n : Nat) (a : Totals),
    (games.enumFrom n).foldl (fun acc p => stepGame t acc p.1 p.2) a =
      { cs := a.cs + games.countP (fun f => goalsAgainst t f == some 0)
        scored := a.scored + (games.map (fun f => (goalsFor t f).getD 0)).sum
        conceded := a.conceded + (games.map (fun f => (goalsAgainst t f).getD 0)).sum
        form := a.form + wsum n (games.map (fun f => pts (goalsFor t f) (goalsAgainst t f))) } := by
  induction games with
  | nil => intro n a; simp [List.enumFrom, wsum]
  | cons f fs ih =>
    intro n a
    rw [show List.enumFrom n (f :: fs) = (n, f) :: List.enumFrom (n + 1) fs from rfl,
      List.foldl_cons, ih]
    simp only [stepGame, List.map_cons, List.countP_cons, List.sum_cons, wsum,
      Totals.mk.injEq]
    refine ⟨?_, by ring, by ring, ?_⟩
    · split <;> omega
    · split <;> ring

/-- The fold of `runGames` from the zero accumulators, in closed form. -/
theorem runGames_eq (t : Nat) (games : List Fixture) :
    runGames t games =
      { cs := games.countP (fun f => goalsAgainst t f == some 0)
        scored := (games.map (fun f => (goalsFor t f).getD 0)).sum
        conceded := (games.map (fun f => (goalsAgainst t f).getD 0)).sum
        form := wsum 0 (games.map (fun f => pts (goalsFor t f) (goalsAgainst t f))) } := by
  rw [show runGames t games
      = (games.enumFrom 0).foldl (fun acc p => stepGame t acc p.1 p.2) ⟨0, 0, 0, 0⟩ from rfl,
    foldl_stepGame_eq]
  simp

/-- Beyond index 4, the weighted sum contributes nothing. -/
theorem wsum_of_ge (ps : List Int) : ∀ i0, 5 ≤ i0 → wsum i0 ps = 0 := by
  induction ps with
  | nil => intro i0 _; simp [wsum]
  | cons p ps ih =>
    intro i0 h
    simp only [wsum, if_neg (by omega : ¬ i0 < 5), ih (i0 + 1) (by omega)]
    ring

/-- Starting at index 0, the weighted sum is the zip of the point values
against the weight list 5,4,3,2,1. -/
theorem wsum_eq_zipWith (ps : List Int) :
    wsum 0 ps = (List.zipWith (fun p (w : Int) => p * w) ps [5, 4, 3, 2, 1]).sum := by
  rcases ps with _ | ⟨p1, _ | ⟨p2, _ | ⟨p3, _ | ⟨p4, _ | ⟨p5, rest⟩⟩⟩⟩⟩
  all_goals simp [wsum, wsum_of_ge]
  all_goals ring

/-- A zip-with-product against nonnegative weights, of values within [0, 3],
lies within [0, 3 × (sum of the weights)]. -/
theorem zipWith_mul_sum_bounds : ∀ (ps ws : List Int), (∀ w ∈ ws, 0 ≤ w) →
    (∀ p ∈ ps, 0 ≤ p ∧ p ≤ 3) →
    0 ≤ (List.zipWith (fun p (w : Int) => p * w) ps ws).sum ∧
      (List.zipWith (fun p (w : Int) => p * w) ps ws).sum ≤ 3 * ws.sum := by
  intro ps
  induction ps with
  | nil =>
    intro ws hw _
    have h0 : 0 ≤ ws.sum := List.sum_nonneg hw
    constructor
    · simp
    · simp; linarith
  | cons p ps ih =>
    intro ws hw hp
    cases ws with
    | nil => simp
    | cons w ws =>
      have hw0 : 0 ≤ w := hw w (by simp)
      obtain ⟨hp0, hp3⟩ := hp p (by simp)
      obtain ⟨ih0, ih3⟩ := ih ws (fun x hx => hw x (by simp [hx])) (fun x hx => hp x (by simp [hx]))
      have h1 : 0 ≤ p * w := mul_nonneg hp0 hw0
      have h2 : p * w ≤ 3 * w := mul_le_mul_of_nonneg_right hp3 hw0
      simp only [List.zipWith_cons_cons, List.sum_cons]
      constructor <;> linarith

/-- Match points are always within [0, 3]. -/
theorem pts_bounds (gf ga : Option Int) : 0 ≤ pts gf ga ∧ pts gf ga ≤ 3 := by
  unfold pts
  split
  · omega
  · split <;> omega

/-- A loss under null-as-0 reading (strictly fewer goals for than against)
scores 0 match points. -/
theorem pts_of_lt (gf ga : Option Int) (h : gf.getD 0 < ga.getD 0) : pts gf ga = 0 := by
  have h1 : ¬ (jsGt gf ga = true) := by simp [jsGt]; omega
  have h2 : ¬ (jsEqq gf ga = true) := by
    simp only [jsEqq, beq_iff_eq]
    intro he
    rw [he] at h
    exact lt_irrefl _ h
  simp [pts, h1, h2]

/-- On two present scores, the code's points agree with the spec's win-3,
draw-1, loss-0 match points. -/
theorem pts_of_isSome (gf ga : Option Int) (hgf : gf.isSome) (hga : ga.isSome) :
    pts gf ga = matchPts (gf.getD 0) (ga.getD 0) := by
  cases gf with
  | none => simp at hgf
  | some x =>
    cases ga with
    | none => simp at hga
    | some y => simp [pts, jsGt, jsEqq, matchPts]

/-- The code's points, characterized for every combination of present and
missing scores. -/
theorem pts_characterization (gf ga : Option Int) :
    pts gf ga =
      if gf.isSome = ga.isSome then matchPts (gf.getD 0) (ga.getD 0)
      else if gf.getD 0 > ga.getD 0 then 3 else 0 := by
  cases gf with
  | none =>
    cases ga with
    | none => simp [pts, jsGt, jsEqq, matchPts]
    | some y => simp [pts, jsGt, jsEqq, matchPts]
  | some x =>
    cases ga with
    | none => simp [pts, jsGt, jsEqq, matchPts]
    | some y => simp [pts, jsGt, jsEqq, matchPts]

/-- A zip-with congruence: functions agreeing on the members of the left
list give equal zips. -/
theorem zipWith_congr_left {α β γ : Type} (f g : α → β → γ) :
    ∀ (l : List α) (l' : List β), (∀ a ∈ l, ∀ b, f a b = g a b) →
      List.zipWith f l l' = List.zipWith g l l' := by
  intro l
  induction l with
  | nil => intro l' _; simp
  | cons a as ih =>
    intro l' h
    cases l' with
    | nil => simp
    | cons b bs =>
      simp only [List.zipWith_cons_cons]
      rw [h a (by simp) b, ih bs (fun x hx b' => h x (by simp [hx]) b')]

/-- The `form` accumulator stays within [0, 45]. -/
theorem form_bounds (t : Nat) (games : List Fixture) :
    0 ≤ (runGames t games).form ∧ (runGames t games).form ≤ 45 := by
  rw [runGames_eq]
  simp only
  rw [wsum_eq_zipWith]
  have hb := zipWith_mul_sum_bounds
    (games.map (fun f => pts (goalsFor t f) (goalsAgainst t f))) [5, 4, 3, 2, 1]
    (by intro w hw; fin_cases hw <;> norm_num)
    (by
      intro p hp
      obtain ⟨f, _, rfl⟩ := List.mem_map.mp hp
      exact pts_bounds _ _)
  norm_num at hb
  exact hb

/-- If every weighted entry is 0, the weighted sum is 0. -/
theorem wsum_of_zero (ps : List Int) (h : ∀ p ∈ ps, p = 0) : ∀ i0, wsum i0 ps = 0 := by
  induction ps with
  | nil => intro i0; simp [wsum]
  | cons p ps ih =>
    intro i0
    rw [h p (by simp)] at *
    simp only [wsum, ih (fun x hx => h x (by simp [hx]))]
    split <;> ring

/-- The per-team `teamStats.set` fold, looked up at any key: a key of the
bootstrap gets the fresh stats, any other key keeps the old map's value. -/
theorem foldl_setStats (fxs : List Fixture) : ∀ (bs : List Team)
    (m : Nat → Option TeamStats) (k : Nat),
    (bs.foldl (fun m t => fun k =>
        if k == t.id then some (teamStatsFor t.id fxs) else m k) m) k =
      if bs.any (fun t => t.id == k) then some (teamStatsFor k fxs) else m k := by
  intro bs
  induction bs with
  | nil => intro m k; simp
  | cons t ts ih =>
    intro m k
    rw [List.foldl_cons, ih]
    by_cases ha : ts.any (fun u => u.id == k) = true
    · simp [List.any_cons, ha]
    · simp only [List.any_cons, ha, Bool.or_false]
      by_cases hk : k = t.id
      · subst hk; simp
      · have hne : ¬ (t.id = k) := fun h => hk h.symm
        simp [hk, hne]

/-- The sort's insertion step permutes. -/
theorem insertByEventDesc_perm (f : Fixture) :
    ∀ l, (insertByEventDesc f l).Perm (f :: l) := by
  intro l
  induction l with
  | nil => exact List.Perm.refl _
  | cons g gs ih =>
    simp only [insertByEventDesc]
    split
    · exact List.Perm.refl _
    · exact (ih.cons g).trans (List.Perm.swap f g gs)

/-- The sort is a permutation of its input. -/
theorem sortByEventDesc_perm : ∀ l, (sortByEventDesc l).Perm l := by
  intro l
  induction l with
  | nil => exact List.Perm.refl _
  | cons f fs ih => exact (insertByEventDesc_perm f _).trans (ih.cons f)

/-- Under a positive current gameweek, the loop's skip condition is exactly
the complement of the spec's window membership. -/
theorem skip_eq_not_inWindow (gwId weeks : Int) (hgw : 0 < gwId) (f : Fixture) :
    skipFixture gwId weeks f = !(inWindow gwId weeks f) := by
  cases hf : f.event with
  | none => simp [skipFixture, inWindow, eventD, hf]
  | some e =>
    rw [Bool.eq_iff_iff]
    simp [skipFixture, inWindow, eventD, hf]
    omega

/-- A non-positive weeks value makes the loop skip every fixture. -/
theorem skip_of_nonpos (gwId weeks : Int) (hw : weeks ≤ 0) (f : Fixture) :
    skipFixture gwId weeks f = true := by
  simp [skipFixture]
  omega

/-- A non-positive weeks value empties the enrichment output. -/
theorem enrich_nil_of_nonpos (s : ServerState) (gwId weeks : Int) (hw : weeks ≤ 0) :
    ∀ fxs, enrichFixtures s gwId weeks fxs = [] := by
  intro fxs
  induction fxs with
  | nil => rfl
  | cons f rest ih => simp [enrichFixtures, skip_of_nonpos gwId weeks hw, ih]

/-! The claims. -/

/-- C1: for every team, the momentum output equals the sum, over the 5 most
recent entries of that team's window (the finished fixtures sorted descending
by gameweek with a missing gameweek as 0, at most 10), of win-3 draw-1 loss-0
match points times the positional weights 5,4,3,2,1, divided by 45.  Stated
for windows whose fixtures all carry both scores, where win/draw/loss is
defined; the all-0-0-draws instance of the claim is the witness. -/
theorem C1_momentum_weighted (t : Nat) (fxs : List Fixture)
    (hp : ∀ f ∈ window t fxs, (goalsFor t f).isSome ∧ (goalsAgainst t f).isSome) :
    (teamStatsFor t fxs).momentum = (specWeightedPoints t (window t fxs) : ℚ) / 45 := by
  have hform : (runGames t (window t fxs)).form = specWeightedPoints t (window t fxs) := by
    rw [runGames_eq]
    simp only
    rw [wsum_eq_zipWith, List.zipWith_map_left]
    unfold specWeightedPoints
    congr 1
    apply zipWith_congr_left
    intro f hf w
    rw [pts_of_isSome _ _ (hp f hf).1 (hp f hf).2]
  have hm : (teamStatsFor t fxs).momentum
      = ((runGames t (window t fxs)).form : ℚ) / 45 := rfl
  rw [hm, hform]

/-- Witness for C1: ten 0-0 draws give a window of ten present-score draws,
momentum 15/45 = 1/3, csRate 1, and zero scoring rates. -/
theorem C1_witness :
    (∀ f ∈ window 1 exDraws, (goalsFor 1 f).isSome ∧ (goalsAgainst 1 f).isSome) ∧
    (teamStatsFor 1 exDraws).momentum = (specWeightedPoints 1 (window 1 exDraws) : ℚ) / 45 ∧
    (teamStatsFor 1 exDraws).momentum = 15 / 45 ∧
    (teamStatsFor 1 exDraws).csRate = 1 ∧
    (teamStatsFor 1 exDraws).goalsPerGame = 0 ∧
    (teamStatsFor 1 exDraws).concededPerGame = 0 := by
  have h1 : runGames 1 (window 1 exDraws) = ⟨10, 0, 0, 15⟩ := by decide
  have h2 : (window 1 exDraws).length = 10 := by decide
  refine ⟨by decide, C1_momentum_weighted 1 exDraws (by decide), ?_, ?_, ?_, ?_⟩ <;>
    norm_num [teamStatsFor, h1, h2]

/-- C2 counterexample: on a finished fixture with home score 0 and away score
missing, the claim predicts the missing goals-against counts as a clean sheet
(csRate 1) and as-if-0 draw points (momentum 5/45 = 1/9); the code's strict
equalities give csRate 0 and momentum 0 instead. -/
theorem C2_counterexample :
    (teamStatsFor 1 [missingScoreFx]).csRate = 0 ∧
    (teamStatsFor 1 [missingScoreFx]).csRate ≠ 1 ∧
    (teamStatsFor 1 [missingScoreFx]).momentum = 0 ∧
    (teamStatsFor 1 [missingScoreFx]).momentum ≠ 1 / 9 := by
  have h1 : runGames 1 (window 1 [missingScoreFx]) = ⟨0, 0, 0, 0⟩ := by decide
  have h2 : (window 1 [missingScoreFx]).length = 1 := by decide
  refine ⟨?_, ?_, ?_, ?_⟩ <;> norm_num [teamStatsFor, h1, h2]

/-- C2 (amended): missing goals contribute 0 to the goals-scored and
goals-conceded totals; but a clean sheet requires the goals-against value to
be strictly equal to 0, so a missing value does not count one; and points use
JS comparisons: two missing scores compare as a draw and a missing value
coerces to 0 in the greater-than test, but a present score strictly equal to
0 against a missing one is a loss, not a draw. -/
theorem C2_amended_missing_scores (t : Nat) (fxs : List Fixture)
    (hne : (window t fxs).length ≠ 0) :
    (teamStatsFor t fxs).goalsPerGame =
      ((((window t fxs).map (fun f => (goalsFor t f).getD 0)).sum : Int) : ℚ)
        / (window t fxs).length ∧
    (teamStatsFor t fxs).concededPerGame =
      ((((window t fxs).map (fun f => (goalsAgainst t f).getD 0)).sum : Int) : ℚ)
        / (window t fxs).length ∧
    (teamStatsFor t fxs).csRate =
      (((window t fxs).countP (fun f => goalsAgainst t f == some 0) : Nat) : ℚ)
        / (window t fxs).length ∧
    (∀ gf ga : Option Int, pts gf ga =
      if gf.isSome = ga.isSome then matchPts (gf.getD 0) (ga.getD 0)
      else if gf.getD 0 > ga.getD 0 then 3 else 0) := by
  refine ⟨?_, ?_, ?_, pts_characterization⟩ <;>
    simp [teamStatsFor, runGames_eq, hne]

/-- Witness for C2's amended statement at the missing-score fixture. -/
theorem C2_witness :
    (window 1 [missingScoreFx]).length ≠ 0 ∧
    (teamStatsFor 1 [missingScoreFx]).csRate =
      (((window 1 [missingScoreFx]).countP
          (fun f => goalsAgainst 1 f == some 0) : Nat) : ℚ)
        / (window 1 [missingScoreFx]).length :=
  ⟨by decide, (C2_amended_missing_scores 1 [missingScoreFx] (by decide)).2.2.1⟩

/-- C3 counterexample: a stats entry of a previous refresh (team 99) survives
a refresh whose bootstrap no longer lists the team — the claim says such an
id has no entry after the refresh. -/
theorem C3_counterexample :
    (loadData freshTeams [] staleState).teamStats 99 = some staleStats ∧
    (loadData freshTeams [] staleState).teamStats 99 ≠ none := by
  have h : (loadData freshTeams [] staleState).teamStats 99 = some staleStats := rfl
  exact ⟨h, by rw [h]; simp⟩

/-- C3 (amended): after a refresh, fixturesData is replaced wholesale and
every id of the current bootstrap gets a freshly derived stats entry computed
only from the current fixtures, but the teamStats map is mutated in place: an
id absent from the current bootstrap keeps whatever entry the previous state
held, rather than being discarded. -/
theorem C3_amended_refresh (bs : List Team) (fxs : List Fixture) (s : ServerState)
    (k : Nat) :
    (loadData bs fxs s).fixturesData = fxs ∧
    (loadData bs fxs s).teamStats k =
      (if bs.any (fun t => t.id == k) then some (teamStatsFor k fxs)
       else s.teamStats k) := by
  exact ⟨rfl, foldl_setStats fxs bs s.teamStats k⟩

/-- C4: with both stats records present, the derived clean-sheet probability
is the spec's arithmetic: base csRate × 100, the three opponent-attack
multipliers, clamp to [5, 55], round. -/
theorem C4_cs_probability (stats : Nat → Option TeamStats) (a b : Nat)
    (ta tb : TeamStats) (ha : stats a = some ta) (hb : stats b = some tb) :
    getCSProb stats a b = specCSProb ta.csRate tb.goalsPerGame := by
  unfold getCSProb specCSProb
  rw [ha, hb]

/-- Witness for C4 at the spec's worked example: opponent goalsPerGame 2.5
and csRate 0.4 give 24. -/
theorem C4_witness :
    exStatsMap 1 = some ⟨2 / 5, 1, 1, 1 / 2⟩ ∧
    exStatsMap 2 = some ⟨1 / 2, 5 / 2, 1, 1 / 2⟩ ∧
    getCSProb exStatsMap 1 2 = specCSProb (2 / 5) (5 / 2) ∧
    getCSProb exStatsMap 1 2 = 24 := by
  refine ⟨rfl, rfl,
    C4_cs_probability exStatsMap 1 2 ⟨2 / 5, 1, 1, 1 / 2⟩ ⟨1 / 2, 5 / 2, 1, 1 / 2⟩ rfl rfl,
    ?_⟩
  norm_num [getCSProb, exStatsMap, jsRound]

/-- C5: a missing stats record on either side makes the probability exactly
25, and a fixture whose opponent id is unknown degrades to the placeholder
short name, empty badge, and probability 25 instead of failing. -/
theorem C5_missing_stats (s : ServerState) (f : Fixture) (a b : Nat)
    (h : s.teamStats a = none ∨ s.teamStats b = none)
    (hT : s.teamsById f.team_a = none)
    (hS : s.teamStats f.team_h = none ∨ s.teamStats f.team_a = none) :
    getCSProb s.teamStats a b = 25 ∧
    (homeRow s f).opp = "?" ∧ (homeRow s f).oppBadge = "" ∧ (homeRow s f).cs = 25 := by
  have h25 : ∀ (m : Nat → Option TeamStats) (x y : Nat),
      m x = none ∨ m y = none → getCSProb m x y = 25 := by
    intro m x y hxy
    rcases hxy with hx | hy
    · simp [getCSProb, hx]
    · cases hmx : m x <;> simp [getCSProb, hmx, hy]
  refine ⟨h25 _ _ _ h, ?_, ?_, h25 _ _ _ hS⟩
  · simp [homeRow, hT]
  · simp [homeRow, hT, getBadge]

/-- Witness for C5 in a state with no stats and no team lookup entries. -/
theorem C5_witness :
    (staleState.teamStats 3 = none ∨ staleState.teamStats 4 = none) ∧
    staleState.teamsById missingScoreFx.team_a = none ∧
    (staleState.teamStats missingScoreFx.team_h = none ∨
      staleState.teamStats missingScoreFx.team_a = none) ∧
    (getCSProb staleState.teamStats 3 4 = 25 ∧
      (homeRow staleState missingScoreFx).opp = "?" ∧
      (homeRow staleState missingScoreFx).oppBadge = "" ∧
      (homeRow staleState missingScoreFx).cs = 25) :=
  ⟨Or.inl rfl, rfl, Or.inl rfl,
    C5_missing_stats staleState missingScoreFx 3 4 (Or.inl rfl) rfl (Or.inl rfl)⟩

/-- C6: for a positive current gameweek, the fixtures list equals exactly two
rows (home participant's row then away participant's row) per fixture whose
gameweek lies in the half-open window, and nothing else; each home row flags
home, names the home team id and the home-side difficulty, mirrored for the
away row. -/
theorem C6_enrichment_window (s : ServerState) (gwId weeks : Int)
    (fxs : List Fixture) (hgw : 0 < gwId) :
    enrichFixtures s gwId weeks fxs =
      (fxs.filter (inWindow gwId weeks)).flatMap
        (fun f => [homeRow s f, awayRow s f]) ∧
    (∀ f : Fixture, (homeRow s f).isHome = true ∧ (awayRow s f).isHome = false ∧
      (homeRow s f).teamId = f.team_h ∧ (awayRow s f).teamId = f.team_a ∧
      (homeRow s f).fdr = f.team_h_difficulty ∧
      (awayRow s f).fdr = f.team_a_difficulty) := by
  constructor
  · induction fxs with
    | nil => simp [enrichFixtures]
    | cons f rest ih =>
      simp only [enrichFixtures, skip_eq_not_inWindow gwId weeks hgw]
      cases hf : inWindow gwId weeks f <;> simp [hf, List.filter_cons, ih]
  · intro f
    exact ⟨rfl, rfl, rfl, rfl, rfl, rfl⟩

/-- Witness for C6: currentGameweek 10 and weeks 6 keep exactly the fixtures
at gameweeks 10 and 15 of the example list (events 9, 16 and the unscheduled
fixture are dropped). -/
theorem C6_witness :
    (0 : Int) < 10 ∧
    enrichFixtures emptyState 10 6 exUpcoming =
      (exUpcoming.filter (inWindow 10 6)).flatMap
        (fun f => [homeRow emptyState f, awayRow emptyState f]) ∧
    (exUpcoming.filter (inWindow 10 6)).map eventD = [10, 15] :=
  ⟨by norm_num, (C6_enrichment_window emptyState 10 6 exUpcoming (by norm_num)).1,
    by decide⟩

/-- C7 counterexample: the claim asserts momentum exceeds 1 on some input;
in fact the weighted form sum is at most 45, so momentum = form / 45 never
exceeds 1 for any team id and any fixture list. -/
theorem C7_counterexample :
    ¬ ∃ (t : Nat) (fxs : List Fixture), 1 < (teamStatsFor t fxs).momentum := by
  rintro ⟨t, fxs, h⟩
  have hb := form_bounds t (window t fxs)
  have hm : (teamStatsFor t fxs).momentum
      = ((runGames t (window t fxs)).form : ℚ) / 45 := rfl
  rw [hm] at h
  have hc : ((runGames t (window t fxs)).form : ℚ) ≤ 45 := by exact_mod_cast hb.2
  have h1 : ((runGames t (window t fxs)).form : ℚ) / 45 ≤ 1 := by
    rw [div_le_one (by norm_num : (0 : ℚ) < 45)]
    exact hc
  linarith

/-- C7 (amended): momentum always lies in [0, 1] — it is 1, not unbounded,
for the strongest runs — and an all-loss window yields momentum exactly 0. -/
theorem C7_amended_momentum_bounds (t : Nat) (fxs : List Fixture) :
    0 ≤ (teamStatsFor t fxs).momentum ∧ (teamStatsFor t fxs).momentum ≤ 1 ∧
    ((∀ f ∈ window t fxs, (goalsFor t f).getD 0 < (goalsAgainst t f).getD 0) →
      (teamStatsFor t fxs).momentum = 0) := by
  have hm : (teamStatsFor t fxs).momentum
      = ((runGames t (window t fxs)).form : ℚ) / 45 := rfl
  have hb := form_bounds t (window t fxs)
  refine ⟨?_, ?_, ?_⟩
  · rw [hm]
    apply div_nonneg _ (by norm_num : (0 : ℚ) ≤ 45)
    exact_mod_cast hb.1
  · rw [hm, div_le_one (by norm_num : (0 : ℚ) < 45)]
    exact_mod_cast hb.2
  · intro hl
    have hz : (runGames t (window t fxs)).form = 0 := by
      rw [runGames_eq]
      simp only
      apply wsum_of_zero
      intro p hp
      obtain ⟨f, hf, rfl⟩ := List.mem_map.mp hp
      exact pts_of_lt _ _ (hl f hf)
    rw [hm, hz]
    norm_num

/-- Witness for C7's amended statement: three straight 0-2 losses give
momentum exactly 0. -/
theorem C7_witness :
    (∀ f ∈ window 1 exLosses, (goalsFor 1 f).getD 0 < (goalsAgainst 1 f).getD 0) ∧
    (teamStatsFor 1 exLosses).momentum = 0 :=
  ⟨by decide, (C7_amended_momentum_bounds 1 exLosses).2.2 (by decide)⟩

/-- C8: a team with zero finished fixtures in the fixture list gets the
all-zero stats record, not an error. -/
theorem C8_zero_fixtures (t : Nat) (fxs : List Fixture)
    (h : ∀ f ∈ fxs, ¬ (f.finished = true ∧ involves t f = true)) :
    teamStatsFor t fxs = ⟨0, 0, 0, 0⟩ := by
  have hw : window t fxs = [] := by
    unfold window
    have hnil : (finishedSorted fxs).filter (involves t) = [] := by
      rw [List.filter_eq_nil_iff]
      intro f hf
      have hf1 : f ∈ fxs.filter (·.finished) :=
        ((sortByEventDesc_perm (fxs.filter (·.finished))).mem_iff).mp hf
      obtain ⟨hmem, hfin⟩ := List.mem_filter.mp hf1
      intro hinv
      exact h f hmem ⟨by simpa using hfin, hinv⟩
    rw [hnil]
    rfl
  have hr : runGames t ([] : List Fixture) = ⟨0, 0, 0, 0⟩ := rfl
  have h0 : teamStatsFor t fxs =
      { csRate := 0, goalsPerGame := 0, concededPerGame := 0,
        momentum := ((runGames t ([] : List Fixture)).form : ℚ) / 45 } := by
    simp [teamStatsFor, hw]
  rw [h0, hr]
  norm_num

/-- Witness for C8: team 1's only fixture in the example list is unfinished,
so its stats record is all zeros. -/
theorem C8_witness :
    (∀ f ∈ exUnfinished, ¬ (f.finished = true ∧ involves 1 f = true)) ∧
    teamStatsFor 1 exUnfinished = ⟨0, 0, 0, 0⟩ :=
  ⟨by decide, C8_zero_fixtures 1 exUnfinished (by decide)⟩

/-- C9: a thrown upstream fetch makes /api/bootstrap answer 503 with error
body FPL API unavailable and /api/fixtures answer 500 with error body
Failed, and each handler maps every input to either a 200 payload or that
error response — nothing propagates. -/
theorem C9_route_error_handling (α : Type) (msg : String) (r : Except String α) :
    bootstrapRoute (α := α) (Except.error msg)
        = ApiResponse.errorJson 503 "FPL API unavailable" ∧
    fixturesRoute (α := α) (Except.error msg) = ApiResponse.errorJson 500 "Failed" ∧
    ((∃ a, bootstrapRoute r = ApiResponse.json 200 a) ∨
      bootstrapRoute r = ApiResponse.errorJson 503 "FPL API unavailable") ∧
    ((∃ a, fixturesRoute r = ApiResponse.json 200 a) ∨
      fixturesRoute r = ApiResponse.errorJson 500 "Failed") := by
  refine ⟨rfl, rfl, ?_, ?_⟩ <;>
    (cases r with
     | ok a => exact Or.inl ⟨a, rfl⟩
     | error e => exact Or.inr rfl)

/-- C10: a weeks parameter that is absent or non-numeric (parseInt NaN,
modelled none) or 0 defaults to 6; a negative value is used as-is and makes
the enrichment loop skip every fixture, so the fixtures list is empty. -/
theorem C10_weeks_param (s : ServerState) (gwId : Int) (fxs : List Fixture)
    (w : Int) (hw : w < 0) :
    weeksParam none = 6 ∧ weeksParam (some 0) = 6 ∧ weeksParam (some w) = w ∧
    enrichFixtures s gwId w fxs = [] := by
  refine ⟨rfl, rfl, ?_, enrich_nil_of_nonpos s gwId w (by omega) fxs⟩
  simp only [weeksParam]
  rw [if_neg (by omega : ¬ w = 0)]

/-- Witness for C10 at weeks = -2. -/
theorem C10_witness :
    (-2 : Int) < 0 ∧
    (weeksParam none = 6 ∧ weeksParam (some 0) = 6 ∧
      weeksParam (some (-2)) = -2 ∧
      enrichFixtures emptyState 10 (-2) exUpcoming = []) :=
  ⟨by norm_num, C10_weeks_param emptyState 10 exUpcoming (-2) (by norm_num)⟩

end FPL
